import Mathlib

/-!
Verification of the chat server in `src/pages/app.py`.

The program is a Flask application: at import time it checks that the model
weights file exists (raising `FileNotFoundError` otherwise) and constructs one
`Llama` session with fixed parameters; the `POST /chat` handler parses the JSON
body, extracts and strips the `message` field, short-circuits blank messages to
`{"reply": ""}`, and otherwise wraps the message in `[INST] ... [/INST]`, calls
the model with `max_tokens=256` and `stop=["[/INST]"]`, and returns the stripped
first-choice text.

The embedding below models JSON/Python values, Python `str.strip`, Python
truthiness (for `request.get_json() or {}`), the handler `chat`, and the
module-level startup sequence.  The inference engine itself is external, so the
handler is parameterised by an oracle `Engine` giving the result of each
`llm(...)` call (`Except.error` standing for a raised exception).  Uncaught
Python exceptions in the handler are modelled by `ChatOutcome.serverError`,
which Flask surfaces as an HTTP 500 response.
-/

namespace PcParts

/-- JSON values as returned by `request.get_json()`.  `Json.null` also stands
for Python `None` (the parse of the JSON text `null`, and Flask's result for an
unparsed body). -/
inductive Json : Type
  | null : Json
  | bool : Bool → Json
  | num : Int → Json
  | str : String → Json
  | arr : List Json → Json
  | obj : List (String × Json) → Json

/-- Python truthiness of a parsed JSON value, as used by
`request.get_json() or {}` in line 36 of `app.py`. -/
def Json.isTruthy : Json → Bool
  | .null => false
  | .bool b => b
  | .num n => n != 0
  | .str s => s != ""
  | .arr xs => !xs.isEmpty
  | .obj fs => !fs.isEmpty

/-- Characters removed by Python `str.strip()` (ASCII whitespace). -/
def isPySpace (c : Char) : Bool :=
  c == ' ' || c == '\t' || c == '\n' || c == '\r' || c == '\x0b' || c == '\x0c'

/-- Python `str.strip()`: remove leading and trailing whitespace. -/
def pyStrip (s : String) : String :=
  String.mk (((s.data.dropWhile isPySpace).reverse.dropWhile isPySpace).reverse)

/-- Python `dict.get key` on the dict built from a JSON object
(later duplicate keys overwrite earlier ones, hence the `reverse`). -/
def dictGet (fields : List (String × Json)) (key : String) : Option Json :=
  fields.reverse.lookup key

/-- The arguments of one `llm(prompt=..., max_tokens=..., stop=...)` call
(line 43 of `app.py`). -/
structure LlamaCall where
  prompt : String
  max_tokens : Nat
  stop : List String
  deriving DecidableEq, Repr

/-- One element of `resp['choices']`; only the `text` field is read. -/
structure LlamaChoice where
  text : String
  deriving DecidableEq, Repr

/-- The completion dict returned by a successful `llm(...)` call. -/
structure LlamaCompletion where
  choices : List LlamaChoice
  deriving DecidableEq, Repr

/-- Behaviour oracle for the external inference engine: the result of each
`llm(...)` call, `Except.error` standing for a raised engine exception. -/
def Engine : Type := LlamaCall → Except String LlamaCompletion

/-- Outcome of one `POST /chat` request: either `jsonify(reply=s)` (HTTP 200)
or an uncaught exception, which Flask turns into its generic 500 response. -/
inductive ChatOutcome : Type
  | reply : String → ChatOutcome
  | serverError : String → ChatOutcome
  deriving DecidableEq, Repr

/-- HTTP status code Flask sends for each outcome. -/
def ChatOutcome.status : ChatOutcome → Nat
  | .reply _ => 200
  | .serverError _ => 500

/-- The prompt template `f"[INST] {user_msg} [/INST]"` (line 42 of `app.py`). -/
def instWrap (user_msg : String) : String :=
  "[INST] " ++ user_msg ++ " [/INST]"

/-- The single `llm(...)` call the handler makes for a stripped message
(lines 43-47 of `app.py`). -/
def mkCall (user_msg : String) : LlamaCall :=
  ⟨instWrap user_msg, 256, ["[/INST]"]⟩

/-- Lines 43-49 of `app.py`: run the engine and build the outcome.  An engine
exception propagates (`serverError`); `resp['choices'][0]` on an empty choice
list raises `IndexError`; otherwise the first choice's text is stripped and
returned. -/
def dispatch (llm : Engine) (call : LlamaCall) : ChatOutcome :=
  match llm call with
  | Except.error e => ChatOutcome.serverError e
  | Except.ok resp =>
    match resp.choices with
    | [] => ChatOutcome.serverError "IndexError"
    | c :: _ => ChatOutcome.reply (pyStrip c.text)

/-- Lines 37-49 of `app.py` once `data` is known to be a dict with the given
fields: `data.get('message', '')`, `.strip()` (an `AttributeError` if the value
is not a string), the blank-message short-circuit, and the model call.  Returns
the outcome together with the list of `llm(...)` calls made. -/
def handleDict (llm : Engine) (fields : List (String × Json)) :
    ChatOutcome × List LlamaCall :=
  match (dictGet fields "message").getD (Json.str "") with
  | Json.str s =>
    if pyStrip s = "" then
      (ChatOutcome.reply "", [])
    else
      (dispatch llm (mkCall (pyStrip s)), [mkCall (pyStrip s)])
  | _ => (ChatOutcome.serverError "AttributeError", [])

/-- The `chat` handler (lines 34-49 of `app.py`), given the parsed JSON body.
`data = request.get_json() or {}` replaces any falsy parse result by the empty
dict; `data.get` on a truthy non-dict raises `AttributeError`. -/
def chat (llm : Engine) (getJson : Json) : ChatOutcome × List LlamaCall :=
  match (if getJson.isTruthy then getJson else Json.obj []) with
  | Json.obj fields => handleDict llm fields
  | _ => (ChatOutcome.serverError "AttributeError", [])

/-- The model session constructed at lines 17-23 of `app.py`. -/
structure LlamaSession where
  model_path : String
  n_ctx : Nat
  temperature : ℚ
  verbose : Bool
  n_threads : Nat
  deriving DecidableEq, Repr

/-- `MODEL_PATH = os.path.join(HERE, 'models', 'llama-2-7b-chat.Q4_K_M.gguf')`
(line 9 of `app.py`). -/
def MODEL_PATH (HERE : String) : String :=
  HERE ++ "/models/llama-2-7b-chat.Q4_K_M.gguf"

/-- Module-level startup (lines 8-23 of `app.py`): raise `FileNotFoundError`
if the model file is missing, otherwise construct the `Llama` session with
`n_ctx=2048`, `temperature=0.7`, `verbose=False`, `n_threads=os.cpu_count()`.
Parameterised by the filesystem (`path_exists`) and the host CPU count. -/
def startup (HERE : String) (path_exists : String → Bool) (cpu_count : Nat) :
    Except String LlamaSession :=
  if path_exists (MODEL_PATH HERE) then
    Except.ok ⟨MODEL_PATH HERE, 2048, 7/10, false, cpu_count⟩
  else
    Except.error ("Cannot find model at " ++ reprStr (MODEL_PATH HERE))

/-- The handler viewed as a (trivial) state transformer on the shared session:
the source contains no assignment to `llm` or its attributes after startup, so
a request leaves the session exactly as it was. -/
def chatSt (llm : Engine) (sess : LlamaSession) (getJson : Json) :
    (ChatOutcome × List LlamaCall) × LlamaSession :=
  (chat llm getJson, sess)

/-- An engine stub that always succeeds with one choice `" hi "`. -/
def egOk : Engine := fun _ => Except.ok ⟨[⟨" hi "⟩]⟩

/-- An engine stub that always succeeds with one choice `"  4  "`. -/
def eg4 : Engine := fun _ => Except.ok ⟨[⟨"  4  "⟩]⟩

/-- An engine stub that always raises. -/
def egBoom : Engine := fun _ => Except.error "boom"

/-- For an object body the truthiness coercion is invisible: an empty dict is
falsy but `or {}` replaces it by the empty dict again. -/
theorem chat_obj (llm : Engine) (fields : List (String × Json)) :
    chat llm (Json.obj fields) = handleDict llm fields := by
  cases fields with
  | nil => rfl
  | cons p l => rfl

/-- Case analysis of the handler: either no engine call happens, or exactly one
call `mkCall (pyStrip s)` happens for some message string `s` with non-blank
strip, and the outcome is `dispatch` of that call. -/
theorem chat_calls_cases (llm : Engine) (j : Json) :
    (chat llm j).2 = [] ∨
      ∃ s, pyStrip s ≠ "" ∧
        chat llm j = (dispatch llm (mkCall (pyStrip s)), [mkCall (pyStrip s)]) := by
  have hd : ∀ fields, (handleDict llm fields).2 = [] ∨
      ∃ s, pyStrip s ≠ "" ∧
        handleDict llm fields =
          (dispatch llm (mkCall (pyStrip s)), [mkCall (pyStrip s)]) := by
    intro fields
    unfold handleDict
    cases hv : (dictGet fields "message").getD (Json.str "") with
    | str s =>
      by_cases hs : pyStrip s = ""
      · left; simp [hs]
      · right; exact ⟨s, hs, by simp [hs]⟩
    | null => left; rfl
    | bool b => left; rfl
    | num n => left; rfl
    | arr xs => left; rfl
    | obj fs => left; rfl
  unfold chat
  cases hj : (if j.isTruthy then j else Json.obj []) with
  | obj fields => exact hd fields
  | null => left; rfl
  | bool b => left; rfl
  | num n => left; rfl
  | str s => left; rfl
  | arr xs => left; rfl

/-- Python `"".strip()` is the empty string. -/
theorem pyStrip_empty : pyStrip "" = "" := rfl

/-- Evaluation of the handler on the canonical one-field body. -/
theorem handleDict_message (llm : Engine) (m : String) :
    handleDict llm [("message", Json.str m)] =
      if pyStrip m = "" then (ChatOutcome.reply "", [])
      else (dispatch llm (mkCall (pyStrip m)), [mkCall (pyStrip m)]) := rfl

/-- C1: for every POST /chat request whose JSON body is an object whose
`message` field is absent, or is a string that is empty or whitespace-only
after stripping, the handler responds exactly `{"reply": ""}` with HTTP 200
and the model is never invoked (the call list is empty). -/
theorem chat_blank_message (llm : Engine) (fields : List (String × Json))
    (h : dictGet fields "message" = none ∨
         ∃ s, dictGet fields "message" = some (Json.str s) ∧ pyStrip s = "") :
    chat llm (Json.obj fields) = (ChatOutcome.reply "", []) ∧
      (chat llm (Json.obj fields)).1.status = 200 := by
  have hh : handleDict llm fields = (ChatOutcome.reply "", []) := by
    unfold handleDict
    rcases h with h | ⟨s, hs, hstrip⟩
    · rw [h]; rfl
    · rw [hs]
      simp [hstrip]
  rw [chat_obj, hh]
  exact ⟨rfl, rfl⟩

/-- Witness for C1 at the whitespace-only body `{"message": "   "}`. -/
theorem chat_blank_message_witness :
    chat egBoom (Json.obj [("message", Json.str "   ")]) = (ChatOutcome.reply "", []) ∧
      (chat egBoom (Json.obj [("message", Json.str "   ")])).1.status = 200 :=
  chat_blank_message egBoom [("message", Json.str "   ")]
    (Or.inr ⟨"   ", rfl, by decide⟩)

/-- C2: for every message string `m` that is non-empty after stripping, the
handler makes exactly one engine call, whose prompt is exactly
`"[INST] " ++ pyStrip m ++ " [/INST]"`. -/
theorem chat_prompt_format (llm : Engine) (m : String) (h : pyStrip m ≠ "") :
    (chat llm (Json.obj [("message", Json.str m)])).2 = [mkCall (pyStrip m)] ∧
      (mkCall (pyStrip m)).prompt = "[INST] " ++ pyStrip m ++ " [/INST]" := by
  rw [chat_obj, handleDict_message, if_neg h]
  exact ⟨rfl, rfl⟩

/-- Witness for C2 at input "Hello": the prompt is exactly
"[INST] Hello [/INST]". -/
theorem chat_prompt_format_witness :
    (chat egBoom (Json.obj [("message", Json.str "Hello")])).2 =
      [⟨"[INST] Hello [/INST]", 256, ["[/INST]"]⟩] := by
  have h := chat_prompt_format egBoom "Hello" (by decide)
  exact h.1.trans (by decide)

/-- C3: every engine call made by the handler has `max_tokens = 256` and the
single stop sequence `"[/INST]"`, and when the engine's result has a first
choice its text (stripped) is the reply. -/
theorem chat_call_params (llm : Engine) (j : Json) :
    (∀ call ∈ (chat llm j).2, call.max_tokens = 256 ∧ call.stop = ["[/INST]"]) ∧
      (∀ call ∈ (chat llm j).2, ∀ c rest, llm call = Except.ok ⟨c :: rest⟩ →
        (chat llm j).1 = ChatOutcome.reply (pyStrip c.text)) := by
  rcases chat_calls_cases llm j with h | ⟨s, _, heq⟩
  · exact ⟨fun call hc => absurd (h ▸ hc) (List.not_mem_nil call),
      fun call hc => absurd (h ▸ hc) (List.not_mem_nil call)⟩
  · constructor
    · intro call hc
      rw [heq] at hc
      simp only [List.mem_singleton] at hc
      subst hc
      exact ⟨rfl, rfl⟩
    · intro call hc c rest hok
      rw [heq] at hc
      simp only [List.mem_singleton] at hc
      subst hc
      rw [heq]
      show dispatch llm (mkCall (pyStrip s)) = _
      unfold dispatch
      rw [hok]

/-- Witness for C3: with a stub engine returning one choice " hi ", the call
made has the fixed parameters and the reply is the stripped first choice. -/
theorem chat_call_params_witness :
    (chat egOk (Json.obj [("message", Json.str "x")])).1 = ChatOutcome.reply "hi" ∧
      (mkCall "x").max_tokens = 256 ∧ (mkCall "x").stop = ["[/INST]"] := by
  have h := chat_call_params egOk (Json.obj [("message", Json.str "x")])
  have hmem : mkCall "x" ∈ (chat egOk (Json.obj [("message", Json.str "x")])).2 := by
    decide
  have h2 := h.2 (mkCall "x") hmem ⟨" hi "⟩ [] rfl
  exact ⟨h2.trans (by decide), (h.1 _ hmem).1, (h.1 _ hmem).2⟩

/-- C4: for every non-blank message and every engine result whose first choice
has text `t`, the reply is `t` with leading and trailing whitespace removed. -/
theorem chat_reply_trimmed (llm : Engine) (m t : String) (rest : List LlamaChoice)
    (hm : pyStrip m ≠ "")
    (hllm : llm (mkCall (pyStrip m)) = Except.ok ⟨⟨t⟩ :: rest⟩) :
    (chat llm (Json.obj [("message", Json.str m)])).1 =
      ChatOutcome.reply (pyStrip t) := by
  rw [chat_obj, handleDict_message, if_neg hm]
  show dispatch llm (mkCall (pyStrip m)) = _
  unfold dispatch
  rw [hllm]

/-- Witness for C4: stub returning "  4  " yields reply "4". -/
theorem chat_reply_trimmed_witness :
    (chat eg4 (Json.obj [("message", Json.str "What is 2+2?")])).1 =
      ChatOutcome.reply "4" := by
  have h := chat_reply_trimmed eg4 "What is 2+2?" "  4  " [] (by decide) rfl
  exact h.trans (by decide)

/-- C5: if the model weights file does not exist at the fixed relative path,
startup raises (returns the `FileNotFoundError` message) and never produces a
session, so the server cannot begin serving requests. -/
theorem startup_missing_model (HERE : String) (path_exists : String → Bool)
    (cpu : Nat) (h : path_exists (MODEL_PATH HERE) = false) :
    startup HERE path_exists cpu =
      Except.error ("Cannot find model at " ++ reprStr (MODEL_PATH HERE)) ∧
      ∀ sess, startup HERE path_exists cpu ≠ Except.ok sess := by
  have he : startup HERE path_exists cpu =
      Except.error ("Cannot find model at " ++ reprStr (MODEL_PATH HERE)) := by
    unfold startup
    rw [h]
    rfl
  refine ⟨he, fun sess hk => ?_⟩
  rw [he] at hk
  exact Except.noConfusion hk

/-- Witness for C5 on an empty filesystem. -/
theorem startup_missing_model_witness :
    startup "/app" (fun _ => false) 4 =
      Except.error ("Cannot find model at " ++ reprStr (MODEL_PATH "/app")) :=
  (startup_missing_model "/app" (fun _ => false) 4 rfl).1

/-- C7: the session produced by startup has context length 2048, temperature
0.7, thread count equal to the host CPU count and the configured model path,
and every /chat request leaves the session unchanged (the source contains no
write to `llm` after line 23). -/
theorem session_config_and_frame (HERE : String) (path_exists : String → Bool)
    (cpu : Nat) (sess : LlamaSession)
    (h : startup HERE path_exists cpu = Except.ok sess) :
    sess.n_ctx = 2048 ∧ sess.temperature = 7/10 ∧ sess.n_threads = cpu ∧
      sess.model_path = MODEL_PATH HERE ∧
      ∀ (llm : Engine) (j : Json), (chatSt llm sess j).2 = sess := by
  unfold startup at h
  by_cases hp : path_exists (MODEL_PATH HERE) = true
  · rw [if_pos hp] at h
    injection h with h'
    subst h'
    exact ⟨rfl, rfl, rfl, rfl, fun llm j => rfl⟩
  · rw [if_neg hp] at h
    exact Except.noConfusion h

/-- Witness for C7: startup on a filesystem containing the model file, host
with 8 CPUs. -/
theorem session_config_and_frame_witness :
    (⟨MODEL_PATH "/app", 2048, 7/10, false, 8⟩ : LlamaSession).n_ctx = 2048 ∧
      (⟨MODEL_PATH "/app", 2048, 7/10, false, 8⟩ : LlamaSession).temperature = 7/10 ∧
      (⟨MODEL_PATH "/app", 2048, 7/10, false, 8⟩ : LlamaSession).n_threads = 8 ∧
      (chatSt egOk ⟨MODEL_PATH "/app", 2048, 7/10, false, 8⟩ Json.null).2 =
        ⟨MODEL_PATH "/app", 2048, 7/10, false, 8⟩ := by
  have h := session_config_and_frame "/app" (fun _ => true) 8
    ⟨MODEL_PATH "/app", 2048, 7/10, false, 8⟩ rfl
  exact ⟨h.1, h.2.1, h.2.2.1, h.2.2.2.2 egOk Json.null⟩

/-- C6: for every non-empty message string, when the engine succeeds with at
least one choice on every call, the handler produces `reply r` for some string
`r`, with HTTP status 200. -/
theorem chat_nonempty_string_reply (llm : Engine) (m : String) (hm : m ≠ "")
    (hok : ∀ call, ∃ c rest, llm call = Except.ok ⟨c :: rest⟩) :
    ∃ r : String,
      (chat llm (Json.obj [("message", Json.str m)])).1 = ChatOutcome.reply r ∧
      (chat llm (Json.obj [("message", Json.str m)])).1.status = 200 := by
  rw [chat_obj, handleDict_message]
  by_cases hs : pyStrip m = ""
  · rw [if_pos hs]
    exact ⟨"", rfl, rfl⟩
  · rw [if_neg hs]
    obtain ⟨c, rest, hc⟩ := hok (mkCall (pyStrip m))
    refine ⟨pyStrip c.text, ?_, ?_⟩
    · show dispatch llm (mkCall (pyStrip m)) = _
      unfold dispatch
      rw [hc]
    · show (dispatch llm (mkCall (pyStrip m))).status = 200
      unfold dispatch
      rw [hc]
      rfl

/-- Witness for C6 at message "hey" with the always-succeeding stub engine. -/
theorem chat_nonempty_string_reply_witness :
    ∃ r : String,
      (chat egOk (Json.obj [("message", Json.str "hey")])).1 = ChatOutcome.reply r ∧
      (chat egOk (Json.obj [("message", Json.str "hey")])).1.status = 200 :=
  chat_nonempty_string_reply egOk "hey" (by decide)
    (fun call => ⟨⟨" hi "⟩, [], rfl⟩)

/-- C8: an engine exception on a non-blank message propagates uncaught: the
outcome is the server error carrying that exception (HTTP 500, no JSON reply),
and exactly one engine call was made (no retry). -/
theorem chat_engine_error_propagates (llm : Engine) (m err : String)
    (hm : pyStrip m ≠ "")
    (he : llm (mkCall (pyStrip m)) = Except.error err) :
    chat llm (Json.obj [("message", Json.str m)]) =
      (ChatOutcome.serverError err, [mkCall (pyStrip m)]) ∧
      (ChatOutcome.serverError err).status = 500 := by
  rw [chat_obj, handleDict_message, if_neg hm]
  refine ⟨?_, rfl⟩
  show (dispatch llm (mkCall (pyStrip m)), _) = _
  unfold dispatch
  rw [he]

/-- Witness for C8 with the always-raising stub engine. -/
theorem chat_engine_error_propagates_witness :
    chat egBoom (Json.obj [("message", Json.str "x")]) =
      (ChatOutcome.serverError "boom", [mkCall "x"]) := by
  have h := chat_engine_error_propagates egBoom "x" "boom" (by decide) rfl
  exact h.1.trans (by decide)

/-- C9: a falsy parse result of the body (`null`, `false`, `0`, `""`, `[]` or
`{}`) is replaced by the empty dict, so the handler answers `{"reply": ""}`
without invoking the model. -/
theorem chat_falsy_body (llm : Engine) (j : Json) (h : j.isTruthy = false) :
    chat llm j = (ChatOutcome.reply "", []) := by
  unfold chat
  rw [h]
  rfl

/-- Witness for C9 at the body `null`. -/
theorem chat_falsy_body_witness :
    chat egOk Json.null = (ChatOutcome.reply "", []) :=
  chat_falsy_body egOk Json.null rfl

/-- C10: a `message` field present with a non-string value makes `.strip()`
raise `AttributeError`, which is not caught: the outcome is a server error
(HTTP 500), no engine call is made, and neither success path is reached. -/
theorem chat_nonstring_message (llm : Engine) (fields : List (String × Json))
    (v : Json) (hv : dictGet fields "message" = some v)
    (hns : ∀ s, v ≠ Json.str s) :
    chat llm (Json.obj fields) = (ChatOutcome.serverError "AttributeError", []) ∧
      (chat llm (Json.obj fields)).1.status = 500 := by
  have hh : handleDict llm fields = (ChatOutcome.serverError "AttributeError", []) := by
    unfold handleDict
    rw [hv]
    cases v with
    | str s => exact absurd rfl (hns s)
    | null => rfl
    | bool b => rfl
    | num n => rfl
    | arr xs => rfl
    | obj fs => rfl
  rw [chat_obj, hh]
  exact ⟨rfl, rfl⟩

/-- Witness for C10 at the body `{"message": 5}`. -/
theorem chat_nonstring_message_witness :
    chat egOk (Json.obj [("message", Json.num 5)]) =
      (ChatOutcome.serverError "AttributeError", []) :=
  (chat_nonstring_message egOk [("message", Json.num 5)] (Json.num 5) rfl
    (fun _ h => Json.noConfusion h)).1

end PcParts
